import Mathlib

/-!
# InfluencerPy — verification of the Scout Engine specification

A shallow embedding of the parts of the InfluencerPy code base that the
specification's claims are about, together with theorems settling each claim.

Embedded components (with their Python sources):
* SHA-256 and the deduplication store — `src/influencerpy/core/embeddings.py`
* the Reddit adapter — `src/influencerpy/tools/reddit.py`
* the RSS manager (`read_feed`, `mark_processed`) — `src/influencerpy/tools/rss.py`
* the Scout Executor retry loop — `src/influencerpy/core/scouts.py`
* the Telegram review channel — `src/influencerpy/channels/telegram.py`
* the `bot` command startup — `src/influencerpy/main.py`

Database tables are embedded as lists of rows, sessions as explicit state
passing, timestamps as naturals supplied by the caller, and the external
LLM / embedding-model / network responses as explicit parameters.
-/

namespace InfluencerPy

/-! ## Python string primitives

Character-level embeddings of the Python string operations the code uses
(`str.strip`, `str.startswith`, `str.lower`, falsiness of a blank string). -/

/-- Python `not text or not text.strip()`: the string is empty or
whitespace-only. -/
def blank_text (s : String) : Bool :=
  s.data.all Char.isWhitespace

/-- Python `s.strip()`. -/
def py_strip (s : String) : String :=
  ⟨((s.data.dropWhile Char.isWhitespace).reverse.dropWhile Char.isWhitespace).reverse⟩

/-- Python `s.startswith(pre)`. -/
def py_startswith (s pre : String) : Bool :=
  pre.data.isPrefixOf s.data

/-- Python `s.lower()`. -/
def py_lower (s : String) : String :=
  ⟨s.data.map Char.toLower⟩

/-! ## SHA-256 over UTF-8 bytes

`EmbeddingManager._compute_hash` is `hashlib.sha256(text.encode("utf-8")).hexdigest()`.
We embed the digest itself (eight 32-bit words); the hex rendering is a
bijective image of the digest, so equality of hex digests is equality of
digests. -/

/-- UTF-8 encoding of one Unicode code point (what Python's `str.encode("utf-8")`
does per character). -/
def utf8EncodeChar (c : Char) : List Nat :=
  let n := c.toNat
  if n < 0x80 then [n]
  else if n < 0x800 then [0xC0 ||| (n >>> 6), 0x80 ||| (n &&& 0x3F)]
  else if n < 0x10000 then
    [0xE0 ||| (n >>> 12), 0x80 ||| ((n >>> 6) &&& 0x3F), 0x80 ||| (n &&& 0x3F)]
  else
    [0xF0 ||| (n >>> 18), 0x80 ||| ((n >>> 12) &&& 0x3F),
     0x80 ||| ((n >>> 6) &&& 0x3F), 0x80 ||| (n &&& 0x3F)]

/-- UTF-8 bytes of a string (mirrors Python `text.encode("utf-8")`). -/
def utf8Bytes (s : String) : List Nat :=
  s.data.flatMap utf8EncodeChar

/-- 32-bit right rotation on naturals reduced mod `2^32`. -/
def rotr (n x : Nat) : Nat :=
  ((x >>> n) ||| (x <<< (32 - n))) % (2 ^ 32)

/-- The 64 SHA-256 round constants, in decimal. -/
def sha256K : List Nat :=
  [1116352408, 1899447441, 3049323471, 3921009573, 961987163, 1508970993,
   2453635748, 2870763221, 3624381080, 310598401, 607225278, 1426881987,
   1925078388, 2162078206, 2614888103, 3248222580, 3835390401, 4022224774,
   264347078, 604807628, 770255983, 1249150122, 1555081692, 1996064986,
   2554220882, 2821834349, 2952996808, 3210313671, 3336571891, 3584528711,
   113926993, 338241895, 666307205, 773529912, 1294757372, 1396182291,
   1695183700, 1986661051, 2177026350, 2456956037, 2730485921, 2820302411,
   3259730800, 3345764771, 3516065817, 3600352804, 4094571909, 275423344,
   430227734, 506948616, 659060556, 883997877, 958139571, 1322822218,
   1537002063, 1747873779, 1955562222, 2024104815, 2227730452, 2361852424,
   2428436474, 2756734187, 3204031479, 3329325298]

/-- SHA-256 padding: append `0x80`, zero bytes to 56 mod 64, then the bit
length as a 64-bit big-endian integer. -/
def sha256pad (msg : List Nat) : List Nat :=
  let len := msg.length
  let zeros := (119 - (len % 64)) % 64
  let bitLen := len * 8
  msg ++ [0x80] ++ List.replicate zeros 0 ++
    ((List.range 8).map (fun i => (bitLen >>> (8 * (7 - i))) % 256))

/-- Big-endian 32-bit words from a 64-byte chunk. -/
def words16 (chunk : List Nat) : List Nat :=
  (List.range 16).map (fun i =>
    (chunk.getD (4 * i) 0) <<< 24 ||| (chunk.getD (4 * i + 1) 0) <<< 16 |||
    (chunk.getD (4 * i + 2) 0) <<< 8 ||| chunk.getD (4 * i + 3) 0)

def smallSigma0 (x : Nat) : Nat := (rotr 7 x) ^^^ (rotr 18 x) ^^^ (x >>> 3)

def smallSigma1 (x : Nat) : Nat := (rotr 17 x) ^^^ (rotr 19 x) ^^^ (x >>> 10)

def bigSigma0 (x : Nat) : Nat := (rotr 2 x) ^^^ (rotr 13 x) ^^^ (rotr 22 x)

def bigSigma1 (x : Nat) : Nat := (rotr 6 x) ^^^ (rotr 11 x) ^^^ (rotr 25 x)

/-- Extend the sixteen message words to the 64-entry message schedule. -/
def sha256Schedule (w16 : List Nat) : Array Nat :=
  (List.range 48).foldl
    (fun w _ =>
      let i := w.size
      let v := (smallSigma1 (w.getD (i - 2) 0) + w.getD (i - 7) 0 +
                smallSigma0 (w.getD (i - 15) 0) + w.getD (i - 16) 0) % (2 ^ 32)
      w.push v)
    w16.toArray

/-- One SHA-256 compression step over a 64-byte chunk. -/
def sha256Compress (h : List Nat) (chunk : List Nat) : List Nat :=
  let w := sha256Schedule (words16 chunk)
  let s :=
    (List.range 64).foldl
      (fun s i =>
        match s with
        | (a, b, c, d, e, f, g, hh) =>
          let ch := (e &&& f) ^^^ ((2 ^ 32 - 1 - e) &&& g)
          let t1 := (hh + bigSigma1 e + ch + sha256K.getD i 0 + w.getD i 0) % (2 ^ 32)
          let maj := ((a &&& b) ^^^ (a &&& c)) ^^^ (b &&& c)
          let t2 := (bigSigma0 a + maj) % (2 ^ 32)
          ((t1 + t2) % (2 ^ 32), a, b, c, (d + t1) % (2 ^ 32), e, f, g))
      (h.getD 0 0, h.getD 1 0, h.getD 2 0, h.getD 3 0,
       h.getD 4 0, h.getD 5 0, h.getD 6 0, h.getD 7 0)
  match s with
  | (a, b, c, d, e, f, g, hh) =>
    [(h.getD 0 0 + a) % (2 ^ 32), (h.getD 1 0 + b) % (2 ^ 32),
     (h.getD 2 0 + c) % (2 ^ 32), (h.getD 3 0 + d) % (2 ^ 32),
     (h.getD 4 0 + e) % (2 ^ 32), (h.getD 5 0 + f) % (2 ^ 32),
     (h.getD 6 0 + g) % (2 ^ 32), (h.getD 7 0 + hh) % (2 ^ 32)]

/-- The eight SHA-256 initial hash words, in decimal. -/
def sha256H0 : List Nat :=
  [1779033703, 3144134277, 1013904242, 2773480762,
   1359893119, 2600822924, 528734635, 1541459225]

/-- SHA-256 digest of a byte sequence, as eight 32-bit words. -/
def sha256 (msg : List Nat) : List Nat :=
  let padded := sha256pad msg
  (List.range (padded.length / 64)).foldl
    (fun h i => sha256Compress h ((padded.drop (64 * i)).take 64)) sha256H0

/-- `EmbeddingManager._compute_hash`: SHA-256 over the UTF-8 bytes of the text. -/
def compute_hash (text : String) : List Nat :=
  sha256 (utf8Bytes text)

/-! ## Deduplication store — `core/embeddings.py`

A `ContentEmbedding` row of the `content_embeddings` table. The
`embedding_json` column stores the model's vector as a JSON string, or the
string `"null"` when embeddings are disabled; the vectors themselves are
produced by the external sentence-transformers model, which we pass in as an
explicit function. -/

structure ContentEmbedding where
  content_hash : List Nat
  embedding_json : String
  source_type : String
deriving Repr, DecidableEq

/-- `EmbeddingManager.is_similar(text, threshold=0.95)`.

The semantic branch (cosine similarity of the external model's embeddings
against `threshold`) is the external model's behaviour, passed in as
`semantic_hit`; the code reaches it only when no exact hash matches and
embeddings are enabled. -/
def is_similar (semantic_hit : String → ℚ → List ContentEmbedding → Bool)
    (enabled : Bool) (text : String) (threshold : ℚ)
    (rows : List ContentEmbedding) : Bool :=
  if blank_text text then false
  else if rows.any (fun r => r.content_hash == compute_hash text) then true
  else if !enabled then false
  else semantic_hit text threshold rows

/-- `EmbeddingManager.add_item(text, source_type)`: inserts a
`(hash, vector-or-null, provenance)` row, unless the text is empty or
whitespace-only, in which case it inserts nothing. `embed_json` is the
external model's embedding serialised to JSON. -/
def add_item (enabled : Bool) (embed_json : String → String)
    (text : String) (source_type : String)
    (rows : List ContentEmbedding) : List ContentEmbedding :=
  if blank_text text then rows
  else
    rows ++ [{ content_hash := compute_hash text
               embedding_json := if enabled then embed_json text else "null"
               source_type := source_type }]

/-- The engine's default `is_similar` threshold (`threshold: float = 0.95`). -/
def defaultThreshold : ℚ := 95 / 100

/-! ## Reddit adapter — `tools/reddit.py` -/

/-- The subreddit-name cleanup in the `reddit` tool: strip whitespace, drop a
leading `r/` or `/r/`. -/
def reddit_clean_subreddit (subreddit : String) : String :=
  let s := py_strip subreddit
  if py_startswith s "r/" then s.drop 2
  else if py_startswith s "/r/" then s.drop 3
  else s

/-- The upstream HTTP request the `reddit` tool builds: its URL, the clamped
limit, and the User-Agent header it attaches. -/
structure RedditRequest where
  subreddit : String
  limit : Int
  url : String
  user_agent : String
deriving Repr, DecidableEq

/-- The request-building prefix of the `reddit` tool (`tools/reddit.py`,
lines 19–36): clamp the limit to `[20, 100]`, clean the subreddit name, and
build the listing URL. -/
def reddit_request (subreddit : String) (limit : Int) (sort : String) : RedditRequest :=
  let limit : Int := if limit < 20 then 20 else if limit > 100 then 100 else limit
  let subreddit := reddit_clean_subreddit subreddit
  { subreddit := subreddit
    limit := limit
    url := "https://www.reddit.com/r/" ++ subreddit ++ "/" ++ sort ++
      ".json?limit=" ++ toString limit
    user_agent := "InfluencerPy/1.0" }

/-! ## RSS manager — `tools/rss.py`

The `rss_feeds` and `rss_entries` tables as lists of rows, timestamps as
naturals, and the `categories_json` blob as the list it serialises
(`json.dumps`/`json.loads` round-trip). -/

structure RSSFeedModel where
  id : Nat
  url : String
  title : String
  scout_id : Option Nat
deriving Repr, DecidableEq

/-- A row of `rss_entries`. The `is_processed`/`processed_at` pair is used by
`RSSManager.read_feed`, `mark_processed` and `reset_processed_status`
(`tools/rss.py` lines 337, 511–512, 535, 544–545) and by the test suite; the
spec lists both on Entry (§3) and requires an idempotent column-add migration
for them (§4.A). The column declarations themselves are absent from
`types/rss.py` in this snapshot, so those two fields are modelled from the
spec; every other field mirrors `types/rss.py`. -/
structure RSSEntryModel where
  id : Nat
  feed_id : Nat
  entry_id : String
  title : String
  link : String
  published : Nat
  author : Option String
  summary : Option String
  content : Option String
  categories : List String
  is_processed : Bool
  processed_at : Option Nat
deriving Repr, DecidableEq

/-- The dedup key `read_feed` builds for an entry:
`f"{entry.title} {entry.summary or ''}"`. -/
def entry_content_text (e : RSSEntryModel) : String :=
  e.title ++ " " ++ e.summary.getD ""

/-- The dict `read_feed` returns per entry (`content` key present only when
`include_content`). -/
structure RSSEntryDict where
  id : Nat
  title : String
  link : String
  published : String
  author : Option String
  summary : Option String
  categories : List String
  content : Option (Option String)
deriving Repr, DecidableEq

def format_read_entry (include_content : Bool) (e : RSSEntryModel) : RSSEntryDict :=
  { id := e.id
    title := e.title
    link := e.link
    published := toString e.published
    author := e.author
    summary := e.summary
    categories := e.categories
    content := if include_content then some e.content else none }

/-- The dedup key of a returned entry dict (the dict keeps the entry's title
and summary unchanged, so this equals the entry's `entry_content_text`). -/
def dict_content_text (d : RSSEntryDict) : String :=
  d.title ++ " " ++ d.summary.getD ""

/-- The row `add_item(text, "retrieved")` inserts for a non-blank text:
its SHA-256 hash, the embedding JSON (or `"null"` when embeddings are
disabled), and provenance `retrieved`. -/
def fingerprint_of (enabled : Bool) (embed_json : String → String)
    (text : String) : ContentEmbedding :=
  { content_hash := compute_hash text
    embedding_json := if enabled then embed_json text else "null"
    source_type := "retrieved" }

/-- The category filter in `read_feed`: skipped entirely when the category
argument is falsy (None or empty), else the entry passes when any of its
categories matches case-insensitively. -/
def category_matches (category : Option String) (e : RSSEntryModel) : Bool :=
  match category with
  | none => true
  | some c =>
    if c.isEmpty then true
    else e.categories.any (fun cc => py_lower c == py_lower cc)

/-- The whole persisted RSS state a `read_feed`/`mark_processed` call touches:
both tables plus the shared dedup store. -/
structure RSSState where
  feeds : List RSSFeedModel
  entries : List RSSEntryModel
  dedup : List ContentEmbedding
deriving Repr, DecidableEq

/-- The per-entry loop of `read_feed` (`tools/rss.py` lines 346–384): filter by
category, drop entries whose `title + " " + summary` matches the dedup store,
index every kept entry into the dedup store, and stop once `max_entries`
entries have been kept. -/
def read_feed_loop (semantic_hit : String → ℚ → List ContentEmbedding → Bool)
    (enabled : Bool) (embed_json : String → String)
    (max_entries : Nat) (category : Option String) (include_content : Bool) :
    List RSSEntryModel → List RSSEntryDict → List ContentEmbedding →
    List RSSEntryDict × List ContentEmbedding
  | [], acc, dedup => (acc.reverse, dedup)
  | e :: rest, acc, dedup =>
    if !category_matches category e then
      read_feed_loop semantic_hit enabled embed_json max_entries category include_content
        rest acc dedup
    else if is_similar semantic_hit enabled (entry_content_text e) defaultThreshold dedup then
      read_feed_loop semantic_hit enabled embed_json max_entries category include_content
        rest acc dedup
    else
      if max_entries ≤ (format_read_entry include_content e :: acc).length then
        ((format_read_entry include_content e :: acc).reverse,
         add_item enabled embed_json (entry_content_text e) "retrieved" dedup)
      else
        read_feed_loop semantic_hit enabled embed_json max_entries category include_content
          rest (format_read_entry include_content e :: acc)
          (add_item enabled embed_json (entry_content_text e) "retrieved" dedup)

/-- Descending order by publish time (`order_by(RSSEntryModel.published.desc())`). -/
def published_desc (a b : RSSEntryModel) : Prop := b.published ≤ a.published

instance : DecidableRel published_desc := fun a b => by
  unfold published_desc; infer_instance

/-- `RSSManager.read_feed(feed_id, max_entries, category, include_content,
only_unprocessed)`. Returns `none` when the feed does not exist (the Python
error dict), else the returned entry dicts; the state comes back with the
dedup store the call left behind. -/
def read_feed (semantic_hit : String → ℚ → List ContentEmbedding → Bool)
    (enabled : Bool) (embed_json : String → String)
    (feed_id : Nat) (max_entries : Nat) (category : Option String)
    (include_content : Bool) (only_unprocessed : Bool)
    (st : RSSState) : Option (List RSSEntryDict) × RSSState :=
  match st.feeds.find? (fun f => f.id == feed_id) with
  | none => (none, st)
  | some _ =>
    let selected := st.entries.filter (fun e =>
      e.feed_id == feed_id && (!only_unprocessed || !e.is_processed))
    let sorted := selected.insertionSort published_desc
    let r := read_feed_loop semantic_hit enabled embed_json max_entries category
      include_content sorted [] st.dedup
    (some r.1, { st with dedup := r.2 })

/-- `session.get(RSSEntryModel, entry_id)` then set the processed pair: update
the (unique) row with that primary key; report whether it was found. -/
def mark_one (eid now : Nat) : List RSSEntryModel → List RSSEntryModel × Bool
  | [] => ([], false)
  | e :: rest =>
    if e.id == eid then
      ({ e with is_processed := true, processed_at := some now } :: rest, true)
    else
      let r := mark_one eid now rest
      (e :: r.1, r.2)

/-- `RSSManager.mark_processed(entry_ids)`: mark each listed entry processed,
returning the new state and the marked count. -/
def mark_processed (entry_ids : List Nat) (now : Nat) (st : RSSState) : RSSState × Nat :=
  let r := entry_ids.foldl
    (fun (p : List RSSEntryModel × Nat) eid =>
      let q := mark_one eid now p.1
      (q.1, if q.2 then p.2 + 1 else p.2))
    (st.entries, 0)
  ({ st with entries := r.1 }, r.2)

/-- A one-feed, one-entry RSS state (fresh dedup store, entry unprocessed)
used to exercise the read/mark/read round-trip at N = 1. -/
def sample_rss_state : RSSState :=
  { feeds := [⟨1, "https://example.com/feed.xml", "F", none⟩]
    entries := [⟨1, 1, "e1", "A", "https://example.com/1", 100, none, some "B",
      none, [], false, none⟩]
    dedup := [] }

/-! ## Scout Executor — `core/scouts.py`

The scout's persisted `config_json` blob, the retry-perturbation generator
`_generate_retry_modifications`, the goal synthesis and the retry loop of
`run_scout` / `_execute_agent_run`. The LLM's reply per attempt is an explicit
oracle `responses : Nat → Except AgentError (List ScoutEntry)`. -/

/-- Python truthiness of an optional string: `None` and `""` are falsy. -/
def optStrTruthy : Option String → Bool
  | some s => !s.isEmpty
  | none => false

/-- Python `a or b` on optional strings. -/
def py_or_str (a b : Option String) : Option String :=
  if optStrTruthy a then a else b

/-- The recognised keys of the scout's `config_json` blob. -/
structure ScoutConfig where
  query : Option String
  url : Option String
  feeds : List String
  subreddits : List String
  tools : List String
  reddit_sort : Option String
  date_filter : Option String
  orchestration_prompt : Option String
  image_generation : Bool
  max_retries : Option Nat
deriving Repr, DecidableEq

/-- `config.get("max_retries", 2)`. -/
def max_retries_of (config : ScoutConfig) : Nat :=
  config.max_retries.getD 2

/-- The `modifications` dict `_generate_retry_modifications` may return: any
subset of the keys `query`, `feeds`, `subreddits`, `reddit_sort`, `sort_hint`. -/
structure RetryMods where
  query : Option String
  feeds : Option (List String)
  subreddits : Option (List String)
  reddit_sort : Option String
  sort_hint : Option String
deriving Repr, DecidableEq

def RetryMods.empty : RetryMods :=
  { query := none, feeds := none, subreddits := none, reddit_sort := none, sort_hint := none }

/-- `sort_methods = ["hot", "new", "top", "rising"]`. -/
def sort_methods : List String := ["hot", "new", "top", "rising"]

/-- The `sort_instructions` dict, with `'different'` as the `.get` default. -/
def sort_instructions (sort : String) : String :=
  if sort == "hot" then "trending and popular"
  else if sort == "new" then "most recent and fresh"
  else if sort == "top" then "highest rated and best"
  else if sort == "rising" then "gaining momentum"
  else "different"

/-- `ScoutManager._generate_retry_modifications(scout, config, query,
retry_attempt)` (`core/scouts.py` lines 327–375). -/
def generate_retry_modifications (config : ScoutConfig) (query : Option String)
    (retry_attempt : Nat) : RetryMods :=
  if config.subreddits ≠ [] then
    let current_sort := config.reddit_sort.getD "hot"
    let idx :=
      match sort_methods.findIdx? (fun s => s == current_sort) with
      | some i => (i + retry_attempt) % sort_methods.length
      | none => retry_attempt % sort_methods.length
    let new_sort := sort_methods.getD idx "hot"
    { RetryMods.empty with
        reddit_sort := some new_sort
        sort_hint := some ("Focus on " ++ sort_instructions new_sort ++ " content") }
  else if config.feeds ≠ [] then
    { RetryMods.empty with
        query := some (match query with
          | some q =>
            if q.isEmpty then "try different feeds or older entries"
            else q ++ " (try different feeds or older entries)"
          | none => "try different feeds or older entries") }
  else if optStrTruthy query && !config.tools.contains "arxiv" then
    let q := query.getD ""
    let variations :=
      [q ++ " recent developments", q ++ " latest updates",
       q ++ " new findings", "alternative perspectives on " ++ q]
    if retry_attempt ≤ 4 then
      -- Python indexes `variations[retry_attempt - 1]`; for `retry_attempt = 0`
      -- that is index -1, Python's last element (the function is only called
      -- with `retry_attempt ≥ 1`).
      let i := if retry_attempt = 0 then 3 else retry_attempt - 1
      { RetryMods.empty with query := some (variations.getD i "") }
    else RetryMods.empty
  else RetryMods.empty

/-- A single-quote character, for goal strings interpolating quoted names. -/
def sq : String := String.singleton (Char.ofNat 39)

/-- The goal synthesis of `_execute_agent_run` (`core/scouts.py` lines
176–242): retry modifications overlay the config, then one goal sentence per
scout shape. -/
def build_goal (scout_type : String) (config : ScoutConfig)
    (override_query : Option String) (retry_attempt : Nat)
    (mods : RetryMods) : String :=
  let query := match mods.query with
    | some q => some q
    | none => py_or_str override_query config.query
  let feeds := mods.feeds.getD config.feeds
  let subreddits := mods.subreddits.getD config.subreddits
  let reddit_sort := mods.reddit_sort.getD (config.reddit_sort.getD "hot")
  let sort_hint := mods.sort_hint.getD ""
  if scout_type == "meta" then
    let op := config.orchestration_prompt.getD
      "Coordinate the available tools to find interesting content."
    let goal := "Orchestrate the available tools to: " ++ op ++ "."
    let fq := py_or_str override_query query
    if optStrTruthy fq then goal ++ " Focus on: " ++ sq ++ fq.getD "" ++ sq ++ "."
    else goal
  else if optStrTruthy config.url then
    let goal := "Analyze the content at: " ++ config.url.getD "" ++ ". Use the " ++
      sq ++ "browser" ++ sq ++ " tool to navigate to the URL and extract the text."
    if optStrTruthy query then goal ++ " Focus on: " ++ sq ++ query.getD "" ++ sq ++ "."
    else goal
  else if feeds ≠ [] then
    let goal := "Find interesting content from ALL your subscribed RSS feeds. Use the " ++
      sq ++ "rss" ++ sq ++
      " tool to list available feeds, then read entries from EACH feed to gather diverse content across all sources."
    let goal :=
      if optStrTruthy query then
        goal ++ " Filter for content related to: " ++ sq ++ query.getD "" ++ sq ++ "."
      else goal
    if 0 < retry_attempt then
      goal ++ " Try exploring different feeds or looking further back in time to find new content."
    else goal
  else if subreddits ≠ [] then
    let sub_list := String.intercalate ", " subreddits
    let goal := "Find interesting content from the following subreddits: " ++ sub_list ++
      ". Use the " ++ sq ++ "reddit" ++ sq ++ " tool with sort=" ++ sq ++ reddit_sort ++ sq ++ "."
    let goal :=
      if optStrTruthy query then
        goal ++ " Filter for content related to: " ++ sq ++ query.getD "" ++ sq ++ "."
      else goal
    if 0 < retry_attempt then
      if !sort_hint.isEmpty then goal ++ " " ++ sort_hint ++ "."
      else goal ++ " Try exploring different topics or sorting methods to find new content."
    else goal
  else if config.tools.contains "arxiv" then
    let days_back0 : Option Nat := match config.date_filter with
      | some s =>
        if s == "today" then some 1
        else if s == "week" then some 7
        else if s == "month" then some 30
        else none
      | none => none
    let days_back : Option Nat := match days_back0 with
      | some d => if 0 < retry_attempt then some (min (d * 2) 90) else some d
      | none => none
    let goal := "Find research papers about: \"" ++
      (match query with | some q => if q.isEmpty then "latest research" else q
                        | none => "latest research") ++
      "\". Use the " ++ sq ++ "arxiv" ++ sq ++ " tool."
    let goal := match days_back with
      | some d => goal ++ " Filter for papers from the last " ++ toString d ++ " days."
      | none => goal
    if 0 < retry_attempt then
      goal ++ " Try different search terms or categories to find new papers."
    else goal
  else
    let goal := "Find interesting content about: \"" ++
      (match query with | some q => if q.isEmpty then "latest news" else q
                        | none => "latest news") ++ "\""
    if 0 < retry_attempt then
      goal ++ " Try different search terms or angles to find new content."
    else goal

/-- How `_execute_agent_run` can fail: the structured-output contract violated
(`StructuredOutputException`), or any other exception. -/
inductive AgentError where
  | structuredOutputFailure
  | other (msg : String)
deriving Repr, DecidableEq

/-- A `ScoutItem` of the agent's structured output (`types/scout.py`). -/
structure ScoutEntry where
  title : String
  url : String
  summary : String
  sources : List String
  image_path : Option String
deriving Repr, DecidableEq

/-- An in-memory `ContentItem` (`core/models.py`), with the metadata keys
`run_scout` fills in. -/
structure ContentItem where
  source_id : String
  title : String
  url : String
  summary : Option String
  metadata_sources : List String
  metadata_image_path : Option String
deriving Repr, DecidableEq

/-- The dedup key built for a structured-output item:
`f"{entry.title} {entry.summary or ''}"` (summary is a plain string here, so
`or ''` is the identity). -/
def scout_content_text (e : ScoutEntry) : String :=
  e.title ++ " " ++ e.summary

/-- The per-item loop of `_execute_agent_run` (`core/scouts.py` lines
284–299): drop duplicates against the dedup store, index and keep the rest.
`ts` is the `datetime.utcnow().timestamp()` used in the generated source id. -/
def scout_dedup_loop (semantic_hit : String → ℚ → List ContentEmbedding → Bool)
    (enabled : Bool) (embed_json : String → String) (ts : Nat) :
    List ScoutEntry → Nat → List ContentItem → List ContentEmbedding →
    List ContentItem × List ContentEmbedding
  | [], _, acc, dedup => (acc.reverse, dedup)
  | e :: rest, i, acc, dedup =>
    let ct := scout_content_text e
    if is_similar semantic_hit enabled ct defaultThreshold dedup then
      scout_dedup_loop semantic_hit enabled embed_json ts rest (i + 1) acc dedup
    else
      let dedup' := add_item enabled embed_json ct "retrieved" dedup
      let item : ContentItem :=
        { source_id := "scout_gen_" ++ toString ts ++ "_" ++ toString i
          title := e.title
          url := e.url
          summary := some e.summary
          metadata_sources := e.sources
          metadata_image_path := e.image_path }
      scout_dedup_loop semantic_hit enabled embed_json ts rest (i + 1) (item :: acc) dedup'

/-- `ScoutManager._execute_agent_run`: returns `(items, should_retry)` and the
dedup store it left behind. `should_retry` defaults to true and is false only
when the agent raised a `StructuredOutputException`; any other exception is
logged and leaves the empty item list with `should_retry` still true. -/
def execute_agent_run (semantic_hit : String → ℚ → List ContentEmbedding → Bool)
    (enabled : Bool) (embed_json : String → String) (ts : Nat)
    (response : Except AgentError (List ScoutEntry))
    (dedup : List ContentEmbedding) :
    List ContentItem × Bool × List ContentEmbedding :=
  match response with
  | .ok entries =>
    let r := scout_dedup_loop semantic_hit enabled embed_json ts entries 0 [] dedup
    (r.1, true, r.2)
  | .error .structuredOutputFailure => ([], false, dedup)
  | .error (.other _) => ([], true, dedup)

/-- The outcome of one `run_scout` call: how many `_execute_agent_run` calls
it made, the items it returned, and the final dedup store. -/
structure RunOutcome where
  attempts : Nat
  items : List ContentItem
  dedup : List ContentEmbedding
deriving Repr, DecidableEq

/-- The retry `while` loop of `run_scout` (`core/scouts.py` lines 526–552),
entered with the initial attempt's empty item list: while the items are empty,
retry makes sense and the budget is not exhausted, run another attempt; a
non-empty retry result or a cleared `should_retry` flag breaks out.

`fuel` is the remaining retry budget `max_retries - retry_count`; it only
makes the loop structurally recursive and never cuts it short, because the
loop condition `retry_count < max_retries` already fails whenever the budget
is exhausted at every call site (the invariant `fuel = max_retries -
retry_count` is established by `run_scout` and preserved here). -/
def run_scout_retry_loop (semantic_hit : String → ℚ → List ContentEmbedding → Bool)
    (enabled : Bool) (embed_json : String → String) (ts : Nat)
    (responses : Nat → Except AgentError (List ScoutEntry))
    (max_retries : Nat) :
    Nat → Nat → Bool → List ContentEmbedding → RunOutcome
  | fuel, retry_count, should_retry, dedup =>
    if should_retry = true ∧ retry_count < max_retries then
      match fuel with
      | 0 => { attempts := 0, items := [], dedup := dedup }
      | fuel + 1 =>
        let r := execute_agent_run semantic_hit enabled embed_json ts
          (responses (retry_count + 1)) dedup
        if r.1.isEmpty then
          if r.2.1 then
            let rest := run_scout_retry_loop semantic_hit enabled embed_json ts responses
              max_retries fuel (retry_count + 1) r.2.1 r.2.2
            { rest with attempts := rest.attempts + 1 }
          else { attempts := 1, items := [], dedup := r.2.2 }
        else { attempts := 1, items := r.1, dedup := r.2.2 }
    else { attempts := 0, items := [], dedup := dedup }

/-- The tool names `run_scout` actually binds (`core/scouts.py` lines
426–514): the recognised subset of `config.tools`, plus the image generator
when `image_generation` is set. -/
def agent_tools_of (config : ScoutConfig) : List String :=
  (["rss", "browser", "google_search", "reddit", "arxiv", "http_request"].filter
    (fun t => config.tools.contains t)) ++
  (if config.image_generation then ["generate_image_stability"] else [])

/-- The attempt/retry skeleton of `ScoutManager.run_scout` (`core/scouts.py`
lines 400–556): nothing runs unless `config.tools` is non-empty and at least
one tool is bound; otherwise one initial attempt, then the retry loop if it
kept no items. The prompt assembly, tool binding and telemetry do not touch
the item list, the dedup store or the attempt count and are omitted. -/
def run_scout (semantic_hit : String → ℚ → List ContentEmbedding → Bool)
    (enabled : Bool) (embed_json : String → String) (ts : Nat)
    (responses : Nat → Except AgentError (List ScoutEntry))
    (config : ScoutConfig) (dedup0 : List ContentEmbedding) : RunOutcome :=
  if config.tools = [] then { attempts := 0, items := [], dedup := dedup0 }
  else if agent_tools_of config = [] then { attempts := 0, items := [], dedup := dedup0 }
  else
    let max_retries := max_retries_of config
    let r0 := execute_agent_run semantic_hit enabled embed_json ts (responses 0) dedup0
    if r0.1.isEmpty then
      let rest := run_scout_retry_loop semantic_hit enabled embed_json ts responses
        max_retries max_retries 0 r0.2.1 r0.2.2
      { rest with attempts := rest.attempts + 1 }
    else { attempts := 1, items := r0.1, dedup := r0.2.2 }

/-! ## Review channel — `channels/telegram.py`

The `posts` table as a list of rows; the Telegram API and the platform
providers as explicit parameters. -/

/-- A row of `posts` (`types/schema.py`). -/
structure PostModel where
  id : Nat
  content : String
  platform : String
  status : String
  posted_at : Option Nat
  external_id : Option String
  scout_id : Option Nat
deriving Repr, DecidableEq

/-- Result of one `check_pending_posts` poll: the updated table and the ids of
the drafts dispatched to the chat, in selection order. -/
structure PollResult where
  posts : List PostModel
  surfaced : List Nat
deriving Repr, DecidableEq

/-- `TelegramChannel.check_pending_posts` (`channels/telegram.py` lines
314–365): bail out when no chat id is configured; otherwise select every post
with status `pending_review`, send each to the chat, and set its status to
`reviewing` (commit per post) so it is not re-sent. -/
def check_pending_posts (chat_id : Option String) (posts : List PostModel) : PollResult :=
  if !optStrTruthy chat_id then { posts := posts, surfaced := [] }
  else
    { posts := posts.map (fun p =>
        if p.status == "pending_review" then { p with status := "reviewing" } else p)
      surfaced := (posts.filter (fun p => p.status == "pending_review")).map (fun p => p.id) }

/-- What a platform provider's `post(content)` call did: returned an external
id, or raised. -/
inductive PublishOutcome where
  | ok (external_id : String)
  | failed (msg : String)
deriving Repr, DecidableEq

/-- The `confirm` branch of `TelegramChannel._button_callback`
(`channels/telegram.py` lines 389–436) as its effect on the post row:
telegram-platform posts are marked posted immediately; `x` and `substack`
authenticate and publish, and only a successful publish commits
`status/external_id/posted_at`; a failed authentication, a raising `post`
call, or an unsupported platform leaves the row untouched. -/
def button_confirm (post : PostModel) (now : Nat)
    (authenticate : Bool) (publish : String → PublishOutcome) : PostModel :=
  if post.platform == "telegram" then
    { post with status := "posted", posted_at := some now }
  else if post.platform == "x" then
    if authenticate then
      match publish post.content with
      | .ok tweet_id =>
        { post with status := "posted", external_id := some tweet_id, posted_at := some now }
      | .failed _ => post
    else post
  else if post.platform == "substack" then
    if authenticate then
      match publish post.content with
      | .ok draft_id =>
        { post with status := "posted", external_id := some draft_id, posted_at := some now }
      | .failed _ => post
    else post
  else post

/-! ## Scheduler singleton — `main.py`

The `bot` command's startup against a world of live `influencerpy bot`
processes and the `bot.pid` file. Signals are modelled by their effect: the
bot process shuts down on SIGTERM (its asyncio loop exits), and the
`_kill_rogue_bots` SIGKILL sweep unconditionally removes every other bot
process, so the net effect does not depend on the SIGTERM model. -/

structure BotWorld where
  pid_file : Option Nat
  alive_bots : List Nat
  current_pid : Nat
  has_token : Bool
deriving Repr, DecidableEq

/-- `_check_system_status`: the PID file exists and `os.kill(pid, 0)` finds
the process alive. -/
def check_system_status (w : BotWorld) : Bool :=
  match w.pid_file with
  | some pid => w.alive_bots.contains pid
  | none => false

/-- `_stop_system` (`main.py` lines 110–134): SIGTERM the PID-file process and
wait, then remove the PID file once the process is gone. -/
def stop_system (w : BotWorld) : BotWorld :=
  match w.pid_file with
  | some pid =>
    let w' := { w with alive_bots := w.alive_bots.filter (fun p => p ≠ pid) }
    if !check_system_status w' then { w' with pid_file := none } else w'
  | none => w

/-- `_kill_rogue_bots` (`main.py` lines 71–107): `_stop_system`, then
`pgrep -f 'influencerpy bot'` and SIGKILL every listed pid other than the
current process. -/
def kill_rogue_bots (w : BotWorld) : BotWorld :=
  let w1 := stop_system w
  { w1 with alive_bots := w1.alive_bots.filter (fun p => p == w.current_pid) }

/-- Outcome of the `bot` command's startup. `started` means it reached
`run_services`, wrote its own pid into `bot.pid`, and launched the scheduler
and the channel. -/
structure BotStart where
  world : BotWorld
  started : Bool
deriving Repr, DecidableEq

/-- The `bot` command (`main.py` lines 1412–1457): return early without a
Telegram token (a plain `return`, exit code 0); otherwise auto-kill other
instances, then start the services with the current pid written to `bot.pid`. -/
def bot (w : BotWorld) : BotStart :=
  if !w.has_token then { world := w, started := false }
  else
    let w1 := kill_rogue_bots w
    { world := { w1 with pid_file := some w.current_pid }, started := true }

/-! ## Theorems settling the claims -/

/-- C10: every Reddit adapter call requests between 20 and 100 posts: a
caller-supplied limit below 20 is raised to 20, one above 100 is lowered to
100, and the request URL is built from the clamped limit. -/
theorem C10_reddit_limit_clamped (subreddit : String) (limit : Int) (sort : String) :
    20 ≤ (reddit_request subreddit limit sort).limit ∧
    (reddit_request subreddit limit sort).limit ≤ 100 ∧
    (limit < 20 → (reddit_request subreddit limit sort).limit = 20) ∧
    (100 < limit → (reddit_request subreddit limit sort).limit = 100) ∧
    (reddit_request subreddit limit sort).url =
      "https://www.reddit.com/r/" ++ reddit_clean_subreddit subreddit ++ "/" ++ sort ++
        ".json?limit=" ++ toString (reddit_request subreddit limit sort).limit := by
  unfold reddit_request
  dsimp only
  split_ifs with h1 h2 <;>
    exact ⟨by omega, by omega, fun h => by omega, fun h => by omega, rfl⟩

/-- Witness for C10 at concrete limits 5 (raised to 20) and 500 (lowered to
100). -/
theorem C10_reddit_limit_clamped_witness :
    (reddit_request "r/rust" 5 "hot").limit = 20 ∧
    (reddit_request "MachineLearning" 500 "new").limit = 100 :=
  ⟨(C10_reddit_limit_clamped "r/rust" 5 "hot").2.2.1 (by decide),
   (C10_reddit_limit_clamped "MachineLearning" 500 "new").2.2.2.1 (by decide)⟩

/-- C1 counterexample: with a Telegram token configured, the PID file naming
live process 42 and current pid 7, the `bot` command does not refuse to start:
it starts (so it does not exit non-zero), and process 42 is no longer running
afterwards (so the live instance is not left running). -/
theorem C1_counterexample :
    (bot ⟨some 42, [42, 7], 7, true⟩).started = true ∧
    ((bot ⟨some 42, [42, 7], 7, true⟩).world.alive_bots.contains 42) = false := by
  constructor <;> rfl

/-- C1 (amended): starting the `bot` command while the PID file names a live
process does not refuse and does not leave that instance running: it stops the
PID-file process, SIGKILLs every other bot process, starts, and overwrites the
PID file with its own pid. -/
theorem C1_amended (w : BotWorld) (p : Nat)
    (htok : w.has_token = true) (hpid : w.pid_file = some p)
    (hlive : w.alive_bots.contains p = true) (hne : p ≠ w.current_pid) :
    (bot w).started = true ∧
    (bot w).world.pid_file = some w.current_pid ∧
    p ∉ (bot w).world.alive_bots ∧
    ∀ q ∈ (bot w).world.alive_bots, q = w.current_pid := by
  have halive : (bot w).world.alive_bots =
      (stop_system w).alive_bots.filter (fun q => q == w.current_pid) := by
    simp [bot, htok, kill_rogue_bots]
  refine ⟨by simp [bot, htok], by simp [bot, htok], ?_, ?_⟩
  · rw [halive]
    intro hmem
    rw [List.mem_filter] at hmem
    exact hne (by simpa using hmem.2)
  · intro q hq
    rw [halive, List.mem_filter] at hq
    simpa using hq.2

/-- Witness for C1 (amended) at the world of `C1_counterexample`'s input. -/
theorem C1_amended_witness :
    (bot ⟨some 42, [42, 7], 7, true⟩).started = true ∧
    (bot ⟨some 42, [42, 7], 7, true⟩).world.pid_file = some 7 ∧
    42 ∉ (bot ⟨some 42, [42, 7], 7, true⟩).world.alive_bots := by
  have h := C1_amended ⟨some 42, [42, 7], 7, true⟩ 42 rfl rfl (by decide) (by decide)
  exact ⟨h.1, h.2.1, h.2.2.1⟩

/-- C5 counterexample: for the empty text, `add_item` inserts nothing and
`is_similar` returns false afterwards (the code short-circuits on blank text
before hashing), so "for every text t, after add(t), is_similar(t) is true"
fails at t = "". -/
theorem C5_counterexample :
    add_item true (fun _ => "[]") "" "retrieved" [] = [] ∧
    is_similar (fun _ _ _ => false) true "" defaultThreshold
      (add_item true (fun _ => "[]") "" "retrieved" []) = false := by
  constructor <;> rfl

/-- C5 (amended): for every text with at least one non-whitespace character
and every threshold, after `add_item(t)` the query `is_similar(t, threshold)`
returns true through the exact SHA-256 match, for every semantic-similarity
behaviour and regardless of whether semantic mode is enabled. -/
theorem C5_amended (semantic_hit : String → ℚ → List ContentEmbedding → Bool)
    (enabled : Bool) (embed_json : String → String) (text : String)
    (threshold : ℚ) (provenance : String) (rows : List ContentEmbedding)
    (h : blank_text text = false) :
    is_similar semantic_hit enabled text threshold
      (add_item enabled embed_json text provenance rows) = true := by
  simp [is_similar, add_item, h, List.any_append]

/-- Witness for C5 (amended) at text "hello world" with semantic mode
disabled. -/
theorem C5_amended_witness :
    is_similar (fun _ _ _ => false) false "hello world" defaultThreshold
      (add_item false (fun _ => "null") "hello world" "retrieved" []) = true :=
  C5_amended (fun _ _ _ => false) false (fun _ => "null") "hello world"
    defaultThreshold "retrieved" [] (by decide)

/-- C6: with a chat configured, one poll surfaces exactly the drafts whose
status is `pending_review`, flips exactly those to `reviewing`, and a later
poll of the resulting table surfaces nothing, so a draft in `reviewing` (or
any status other than `pending_review`) is never surfaced again. -/
theorem C6_poll_exactly_pending (chat : String) (hchat : chat.isEmpty = false)
    (posts : List PostModel) :
    (check_pending_posts (some chat) posts).surfaced =
      (posts.filter (fun p => p.status == "pending_review")).map (fun p => p.id) ∧
    (check_pending_posts (some chat) posts).posts =
      posts.map (fun p =>
        if p.status == "pending_review" then { p with status := "reviewing" } else p) ∧
    ∀ chat2, (check_pending_posts chat2
      (check_pending_posts (some chat) posts).posts).surfaced = [] := by
  have hc : optStrTruthy (some chat) = true := by
    simp [optStrTruthy, hchat]
  have hposts : (check_pending_posts (some chat) posts).posts =
      posts.map (fun p =>
        if p.status == "pending_review" then { p with status := "reviewing" } else p) := by
    simp [check_pending_posts, hc]
  refine ⟨by simp [check_pending_posts, hc], hposts, ?_⟩
  intro chat2
  rw [hposts]
  by_cases h2 : optStrTruthy chat2 = true
  · simp only [check_pending_posts, h2, Bool.not_true, Bool.false_eq_true, if_false]
    rw [List.map_eq_nil_iff, List.filter_eq_nil_iff]
    intro p hp
    rw [List.mem_map] at hp
    obtain ⟨q, _hq, hpq⟩ := hp
    rw [← hpq]
    by_cases h : (q.status == "pending_review") = true <;> simp [h]
  · simp only [check_pending_posts, Bool.eq_false_iff.mpr h2]
    simp

/-- Witness for C6 on a two-draft table (id 1 pending, id 2 reviewing): the
poll surfaces exactly draft 1 and a second poll surfaces nothing. -/
theorem C6_poll_exactly_pending_witness :
    (check_pending_posts (some "123")
      [{ id := 1, content := "a", platform := "x", status := "pending_review",
         posted_at := none, external_id := none, scout_id := none },
       { id := 2, content := "b", platform := "x", status := "reviewing",
         posted_at := none, external_id := none, scout_id := none }]).surfaced = [1] ∧
    (check_pending_posts (some "99") (check_pending_posts (some "123")
      [{ id := 1, content := "a", platform := "x", status := "pending_review",
         posted_at := none, external_id := none, scout_id := none },
       { id := 2, content := "b", platform := "x", status := "reviewing",
         posted_at := none, external_id := none, scout_id := none }]).posts).surfaced = [] := by
  have h := C6_poll_exactly_pending "123" rfl
    [{ id := 1, content := "a", platform := "x", status := "pending_review",
       posted_at := none, external_id := none, scout_id := none },
     { id := 2, content := "b", platform := "x", status := "reviewing",
       posted_at := none, external_id := none, scout_id := none }]
  exact ⟨h.1.trans (by rfl), h.2.2 (some "99")⟩

/-- C7: when the platform publisher raises during approve of an `x` or
`substack` draft, the draft row is left completely unchanged — in particular
its status (`reviewing`), posted-at and external-id — whether or not
authentication succeeded. -/
theorem C7_publish_failure_unchanged (post : PostModel) (now : Nat)
    (authenticate : Bool) (publish : String → PublishOutcome) (msg : String)
    (hplat : post.platform = "x" ∨ post.platform = "substack")
    (hfail : publish post.content = .failed msg) :
    button_confirm post now authenticate publish = post := by
  rcases hplat with h | h <;>
    · unfold button_confirm
      rw [h]
      cases authenticate <;> simp [hfail]

/-- Witness for C7: a reviewing `x` draft whose publisher raises stays
exactly as it was. -/
theorem C7_publish_failure_unchanged_witness :
    button_confirm
      { id := 5, content := "text", platform := "x", status := "reviewing",
        posted_at := none, external_id := none, scout_id := none }
      1000 true (fun _ => .failed "boom") =
      { id := 5, content := "text", platform := "x", status := "reviewing",
        posted_at := none, external_id := none, scout_id := none } :=
  C7_publish_failure_unchanged _ 1000 true (fun _ => .failed "boom") "boom"
    (Or.inl rfl) rfl

/-- With `should_retry` already cleared, the retry loop performs no attempt. -/
theorem run_scout_retry_loop_false
    (semantic_hit : String → ℚ → List ContentEmbedding → Bool)
    (enabled : Bool) (embed_json : String → String) (ts : Nat)
    (responses : Nat → Except AgentError (List ScoutEntry))
    (max_retries fuel retry_count : Nat) (dedup : List ContentEmbedding) :
    run_scout_retry_loop semantic_hit enabled embed_json ts responses max_retries
      fuel retry_count false dedup = { attempts := 0, items := [], dedup := dedup } := by
  cases fuel <;>
    · rw [run_scout_retry_loop]
      rw [if_neg (by simp)]

/-- The retry loop performs at most `max_retries - retry_count` attempts. -/
theorem run_scout_retry_loop_attempts_le
    (semantic_hit : String → ℚ → List ContentEmbedding → Bool)
    (enabled : Bool) (embed_json : String → String) (ts : Nat)
    (responses : Nat → Except AgentError (List ScoutEntry)) (max_retries : Nat) :
    ∀ (fuel retry_count : Nat) (should_retry : Bool) (dedup : List ContentEmbedding),
      (run_scout_retry_loop semantic_hit enabled embed_json ts responses max_retries
        fuel retry_count should_retry dedup).attempts ≤ max_retries - retry_count := by
  intro fuel
  induction fuel with
  | zero =>
    intro rc sr dedup
    rw [run_scout_retry_loop]
    split <;> simp
  | succ fuel ih =>
    intro rc sr dedup
    rw [run_scout_retry_loop]
    by_cases hc : sr = true ∧ rc < max_retries
    · rw [if_pos hc]
      dsimp only
      generalize execute_agent_run semantic_hit enabled embed_json ts
        (responses (rc + 1)) dedup = r
      obtain ⟨items, sr2, dedup2⟩ := r
      try dsimp only
      cases items with
      | nil =>
        cases sr2 with
        | true =>
          have hrec := ih (rc + 1) true dedup2
          simp only [List.isEmpty_nil, if_true]
          try dsimp only at hrec ⊢
          omega
        | false => simp; omega
      | cons a l => simp; omega
    · rw [if_neg hc]
      simp

/-- Once some attempt raises a `StructuredOutputFailure`, the retry loop never
runs past it: starting at `retry_count`, it performs at most
`j - retry_count` attempts when attempt `j` is the failing one. -/
theorem run_scout_retry_loop_sof_le
    (semantic_hit : String → ℚ → List ContentEmbedding → Bool)
    (enabled : Bool) (embed_json : String → String) (ts : Nat)
    (responses : Nat → Except AgentError (List ScoutEntry)) (max_retries : Nat) (j : Nat)
    (hsof : responses j = .error .structuredOutputFailure) :
    ∀ (fuel retry_count : Nat) (should_retry : Bool) (dedup : List ContentEmbedding),
      retry_count < j →
      (run_scout_retry_loop semantic_hit enabled embed_json ts responses max_retries
        fuel retry_count should_retry dedup).attempts ≤ j - retry_count := by
  intro fuel
  induction fuel with
  | zero =>
    intro rc sr dedup hrc
    rw [run_scout_retry_loop]
    split <;> simp
  | succ fuel ih =>
    intro rc sr dedup hrc
    rw [run_scout_retry_loop]
    by_cases hc : sr = true ∧ rc < max_retries
    · rw [if_pos hc]
      dsimp only
      by_cases hj : rc + 1 = j
      · rw [hj, hsof]
        simp only [execute_agent_run]
        simp
        omega
      · have hrc' : rc + 1 < j := by omega
        generalize execute_agent_run semantic_hit enabled embed_json ts
          (responses (rc + 1)) dedup = r
        obtain ⟨items, sr2, dedup2⟩ := r
        try dsimp only
        cases items with
        | nil =>
          cases sr2 with
          | true =>
            have hrec := ih (rc + 1) true dedup2 hrc'
            simp only [List.isEmpty_nil, if_true]
            try dsimp only at hrec ⊢
            omega
          | false => simp; omega
        | cons a l => simp; omega
    · rw [if_neg hc]
      simp

/-- With every attempt returning the empty structured list, the retry loop
spends its whole budget: exactly `max_retries - retry_count` attempts. -/
theorem run_scout_retry_loop_all_empty
    (semantic_hit : String → ℚ → List ContentEmbedding → Bool)
    (enabled : Bool) (embed_json : String → String) (ts : Nat)
    (responses : Nat → Except AgentError (List ScoutEntry)) (max_retries : Nat)
    (hresp : ∀ n, responses n = .ok []) :
    ∀ (fuel retry_count : Nat) (dedup : List ContentEmbedding),
      fuel = max_retries - retry_count →
      (run_scout_retry_loop semantic_hit enabled embed_json ts responses max_retries
        fuel retry_count true dedup).attempts = max_retries - retry_count := by
  intro fuel
  induction fuel with
  | zero =>
    intro rc dedup hfuel
    rw [run_scout_retry_loop]
    have hc : ¬ ((true : Bool) = true ∧ rc < max_retries) := by
      intro hc
      omega
    rw [if_neg hc]
    try dsimp only
    omega
  | succ fuel ih =>
    intro rc dedup hfuel
    rw [run_scout_retry_loop]
    have hc : (true : Bool) = true ∧ rc < max_retries := ⟨rfl, by omega⟩
    rw [if_pos hc]
    try dsimp only
    rw [hresp (rc + 1)]
    simp only [execute_agent_run, scout_dedup_loop, List.reverse_nil, List.isEmpty_nil,
      if_true]
    have hrec := ih (rc + 1) dedup (by omega)
    try dsimp only at hrec ⊢
    omega

/-- C4: whenever an attempt of a scout run keeps zero items after dedup, the
Executor performs at most `max_retries` (default 2, from
`config.get("max_retries", 2)`) additional attempts beyond the initial one,
and an attempt failing with a `StructuredOutputFailure` is always the last
one — in particular a failing initial attempt means no additional attempt at
all. -/
theorem C4_retry_budget (semantic_hit : String → ℚ → List ContentEmbedding → Bool)
    (enabled : Bool) (embed_json : String → String) (ts : Nat)
    (responses : Nat → Except AgentError (List ScoutEntry))
    (config : ScoutConfig) (dedup0 : List ContentEmbedding) :
    (run_scout semantic_hit enabled embed_json ts responses config dedup0).attempts ≤
      1 + max_retries_of config ∧
    max_retries_of config = config.max_retries.getD 2 ∧
    (∀ j, responses j = .error .structuredOutputFailure →
      (run_scout semantic_hit enabled embed_json ts responses config dedup0).attempts ≤
        j + 1) := by
  refine ⟨?_, rfl, ?_⟩
  · unfold run_scout
    split
    · simp
    · split
      · simp
      · try dsimp only
        split
        · have h := run_scout_retry_loop_attempts_le semantic_hit enabled embed_json ts
            responses (max_retries_of config) (max_retries_of config) 0
            (execute_agent_run semantic_hit enabled embed_json ts (responses 0) dedup0).2.1
            (execute_agent_run semantic_hit enabled embed_json ts (responses 0) dedup0).2.2
          try dsimp only at h ⊢
          omega
        · try dsimp only
          omega
  · intro j hsof
    unfold run_scout
    split
    · simp
    · split
      · simp
      · try dsimp only
        split
        · rcases Nat.eq_zero_or_pos j with hj | hj
          · subst hj
            rw [hsof]
            simp only [execute_agent_run]
            rw [run_scout_retry_loop_false]
            try simp
          · have h := run_scout_retry_loop_sof_le semantic_hit enabled embed_json ts
              responses (max_retries_of config) j hsof (max_retries_of config) 0
              (execute_agent_run semantic_hit enabled embed_json ts (responses 0) dedup0).2.1
              (execute_agent_run semantic_hit enabled embed_json ts (responses 0) dedup0).2.2 hj
            try dsimp only at h ⊢
            omega
        · try dsimp only
          omega

/-- Witness for C4: a structured-output failure on the initial attempt of a
Reddit scout stops the run at one attempt, within the default budget. -/
theorem C4_retry_budget_witness :
    (run_scout (fun _ _ _ => false) false (fun _ => "null") 0
      (fun _ => .error .structuredOutputFailure)
      ⟨none, none, [], ["rust"], ["reddit"], some "hot", none, none, false, none⟩
      []).attempts ≤ 1 ∧
    max_retries_of
      ⟨none, none, [], ["rust"], ["reddit"], some "hot", none, none, false, none⟩ = 2 := by
  have h := C4_retry_budget (fun _ _ _ => false) false (fun _ => "null") 0
    (fun _ => .error .structuredOutputFailure)
    ⟨none, none, [], ["rust"], ["reddit"], some "hot", none, none, false, none⟩ []
  exact ⟨by simpa using h.2.2 0 rfl, h.2.1⟩

/-- C8 counterexample: an http-kind scout (a `url` config, the `http_request`
tool, no query) whose every attempt keeps zero items does not terminate after
the first attempt: the run performs 3 attempts (the initial one plus the
default `max_retries = 2` additional ones), so retries are not abandoned
immediately for http scouts. -/
theorem C8_counterexample :
    (run_scout (fun _ _ _ => false) false (fun _ => "null") 0 (fun _ => .ok [])
      ⟨none, some "https://example.com", [], [], ["http_request"], none, none, none,
        false, none⟩ []).attempts = 3 := by
  rfl

/-- C8 (amended): for a scout of http or meta shape (no subreddits, no feeds,
no truthy query) the retry perturbation is indeed empty, but the run does not
terminate immediately: with every attempt keeping zero items (and no
structured-output failure) the Executor still performs the full `max_retries`
additional attempts. -/
theorem C8_amended (semantic_hit : String → ℚ → List ContentEmbedding → Bool)
    (enabled : Bool) (embed_json : String → String) (ts : Nat)
    (responses : Nat → Except AgentError (List ScoutEntry))
    (config : ScoutConfig) (dedup0 : List ContentEmbedding)
    (query : Option String) (k : Nat)
    (hsubs : config.subreddits = []) (hfeeds : config.feeds = [])
    (hq : optStrTruthy query = false)
    (hresp : ∀ n, responses n = .ok [])
    (htools : config.tools ≠ []) (hat : agent_tools_of config ≠ []) :
    generate_retry_modifications config query k = RetryMods.empty ∧
    (run_scout semantic_hit enabled embed_json ts responses config dedup0).attempts =
      1 + max_retries_of config := by
  constructor
  · unfold generate_retry_modifications
    rw [if_neg (by simp [hsubs]), if_neg (by simp [hfeeds]), if_neg (by simp [hq])]
  · unfold run_scout
    rw [if_neg htools, if_neg hat]
    try dsimp only
    rw [hresp 0]
    simp only [execute_agent_run, scout_dedup_loop, List.reverse_nil, List.isEmpty_nil,
      if_true]
    have h := run_scout_retry_loop_all_empty semantic_hit enabled embed_json ts
      responses (max_retries_of config) hresp (max_retries_of config) 0 dedup0 (by omega)
    try dsimp only at h ⊢
    omega

/-- Witness for C8 (amended) at the http scout of `C8_counterexample`: empty
perturbation on retry 1 and 1 + 2 = 3 attempts in total. -/
theorem C8_amended_witness :
    generate_retry_modifications
      ⟨none, some "https://example.com", [], [], ["http_request"], none, none, none,
        false, none⟩ none 1 = RetryMods.empty ∧
    (run_scout (fun _ _ _ => false) false (fun _ => "null") 0 (fun _ => .ok [])
      ⟨none, some "https://example.com", [], [], ["http_request"], none, none, none,
        false, none⟩ []).attempts = 3 := by
  have h := C8_amended (fun _ _ _ => false) false (fun _ => "null") 0 (fun _ => .ok [])
    ⟨none, some "https://example.com", [], [], ["http_request"], none, none, none,
      false, none⟩ [] none 1 rfl rfl rfl (fun _ => rfl) (by decide) (by decide)
  exact ⟨h.1, h.2.trans rfl⟩

/-- C9: on the k-th retry (k ≥ 1) of a Reddit scout whose configured sort has
index i in [hot, new, top, rising], the retry modifications select the sort at
index (i + k) mod 4, and the synthesised goal carries that sort and ends with
the matching appended hint ("Focus on (trending and popular / most recent and
fresh / highest rated and best / gaining momentum) content."). -/
theorem C9_reddit_retry_sort_and_hint (config : ScoutConfig) (scout_type : String)
    (override_query query : Option String) (cur : String) (i k : Nat)
    (hsubs : config.subreddits ≠ [])
    (htype : (scout_type == "meta") = false)
    (hurl : optStrTruthy config.url = false)
    (hfeeds : config.feeds = [])
    (hsort : config.reddit_sort = some cur)
    (hidx : sort_methods.findIdx? (fun s => s == cur) = some i)
    (hk : 1 ≤ k) :
    (generate_retry_modifications config query k).reddit_sort =
      some (sort_methods.getD ((i + k) % 4) "hot") ∧
    (generate_retry_modifications config query k).sort_hint =
      some ("Focus on " ++ sort_instructions (sort_methods.getD ((i + k) % 4) "hot") ++
        " content") ∧
    build_goal scout_type config override_query k
        (generate_retry_modifications config query k) =
      (let goal := "Find interesting content from the following subreddits: " ++
          String.intercalate ", " config.subreddits ++ ". Use the " ++ sq ++ "reddit" ++
          sq ++ " tool with sort=" ++ sq ++ sort_methods.getD ((i + k) % 4) "hot" ++
          sq ++ "."
       let goal := if optStrTruthy (py_or_str override_query config.query) then
           goal ++ " Filter for content related to: " ++ sq ++
             (py_or_str override_query config.query).getD "" ++ sq ++ "."
         else goal
       goal ++ " " ++ ("Focus on " ++
         sort_instructions (sort_methods.getD ((i + k) % 4) "hot") ++ " content") ++ ".") := by
  have hmods : generate_retry_modifications config query k =
      { query := none, feeds := none, subreddits := none,
        reddit_sort := some (sort_methods.getD ((i + k) % 4) "hot"),
        sort_hint := some ("Focus on " ++
          sort_instructions (sort_methods.getD ((i + k) % 4) "hot") ++ " content") } := by
    unfold generate_retry_modifications
    rw [if_pos hsubs, hsort]
    simp only [Option.getD_some, hidx]
    rfl
  rw [hmods]
  refine ⟨rfl, rfl, ?_⟩
  unfold build_goal
  have hk0 : 0 < k := Nat.lt_of_lt_of_le Nat.zero_lt_one hk
  have hm : (i + k) % 4 < 4 := Nat.mod_lt _ (by norm_num)
  set m := (i + k) % 4 with hmdef
  clear hmdef
  interval_cases m <;>
    simp [htype, hurl, hfeeds, hsubs, hk0, sort_methods, sort_instructions] <;>
    (intro h; exact absurd h (by decide))

/-- Witness for C9: a Reddit scout over r/rust configured with sort hot
(index 0); on retry 1 the sort becomes new = index (0+1) mod 4 and the goal
ends with the "most recent and fresh" hint. -/
theorem C9_reddit_retry_sort_and_hint_witness :
    (generate_retry_modifications
      ⟨none, none, [], ["rust"], ["reddit"], some "hot", none, none, false, none⟩
      none 1).reddit_sort = some "new" ∧
    (generate_retry_modifications
      ⟨none, none, [], ["rust"], ["reddit"], some "hot", none, none, false, none⟩
      none 1).sort_hint = some "Focus on most recent and fresh content" ∧
    build_goal "reddit"
      ⟨none, none, [], ["rust"], ["reddit"], some "hot", none, none, false, none⟩
      none 1
      (generate_retry_modifications
        ⟨none, none, [], ["rust"], ["reddit"], some "hot", none, none, false, none⟩
        none 1) =
      "Find interesting content from the following subreddits: rust. Use the " ++ sq ++
        "reddit" ++ sq ++ " tool with sort=" ++ sq ++ "new" ++ sq ++
        ". Focus on most recent and fresh content." := by
  have h := C9_reddit_retry_sort_and_hint
    ⟨none, none, [], ["rust"], ["reddit"], some "hot", none, none, false, none⟩
    "reddit" none none "hot" 0 1 (by decide) rfl rfl rfl rfl rfl (by decide)
  exact ⟨h.1.trans (by decide), h.2.1.trans (by decide), h.2.2.trans (by decide)⟩

/-- Each pass of the `read_feed` loop returns the kept entries after the
accumulator and appends to the dedup store exactly one fingerprint per kept
entry with non-blank content text. -/
theorem read_feed_loop_dedup_effect
    (semantic_hit : String → ℚ → List ContentEmbedding → Bool)
    (enabled : Bool) (embed_json : String → String)
    (max_entries : Nat) (category : Option String) (include_content : Bool) :
    ∀ (l : List RSSEntryModel) (acc : List RSSEntryDict) (dedup : List ContentEmbedding),
      ∃ kept : List RSSEntryDict,
        (read_feed_loop semantic_hit enabled embed_json max_entries category
          include_content l acc dedup).1 = acc.reverse ++ kept ∧
        (read_feed_loop semantic_hit enabled embed_json max_entries category
          include_content l acc dedup).2 =
          dedup ++ (kept.filter (fun d => !blank_text (dict_content_text d))).map
            (fun d => fingerprint_of enabled embed_json (dict_content_text d)) := by
  intro l
  induction l with
  | nil =>
    intro acc dedup
    exact ⟨[], by simp [read_feed_loop], by simp [read_feed_loop]⟩
  | cons e rest ih =>
    intro acc dedup
    rw [read_feed_loop]
    by_cases hcat : category_matches category e = true
    · rw [if_neg (by simp [hcat])]
      by_cases hsim : is_similar semantic_hit enabled (entry_content_text e)
          defaultThreshold dedup = true
      · rw [if_pos hsim]
        exact ih acc dedup
      · rw [if_neg hsim]
        have htext : dict_content_text (format_read_entry include_content e) =
            entry_content_text e := rfl
        by_cases hbrk : max_entries ≤ (format_read_entry include_content e :: acc).length
        · rw [if_pos hbrk]
          refine ⟨[format_read_entry include_content e], by simp, ?_⟩
          unfold add_item
          by_cases hb : blank_text (entry_content_text e) = true
          · rw [if_pos hb]
            simp [List.filter_cons, htext, hb]
          · rw [if_neg hb]
            simp [List.filter_cons, htext, Bool.eq_false_iff.mpr hb, fingerprint_of]
        · rw [if_neg hbrk]
          obtain ⟨kept, h1, h2⟩ := ih (format_read_entry include_content e :: acc)
            (add_item enabled embed_json (entry_content_text e) "retrieved" dedup)
          refine ⟨format_read_entry include_content e :: kept, ?_, ?_⟩
          · rw [h1]
            simp
          · rw [h2]
            unfold add_item
            by_cases hb : blank_text (entry_content_text e) = true
            · rw [if_pos hb]
              simp [List.filter_cons, htext, hb]
            · rw [if_neg hb]
              simp [List.filter_cons, htext, Bool.eq_false_iff.mpr hb, fingerprint_of]
    · rw [if_pos (by simp [hcat])]
      exact ih acc dedup

/-- C2 counterexample: reading one stored entry through the RSS adapter does
not leave the Deduplication Store unchanged — the store gains a fingerprint
(and the adapter consulted `is_similar` to decide to keep the entry). -/
theorem C2_counterexample :
    (read_feed (fun _ _ _ => false) false (fun _ => "null") 1 10 none false false
      { feeds := [⟨1, "https://example.com/feed.xml", "F", none⟩],
        entries := [⟨1, 1, "e1", "A", "https://example.com/1", 100, none, some "B",
          none, [], false, none⟩],
        dedup := [] }).2.dedup ≠
    ({ feeds := [⟨1, "https://example.com/feed.xml", "F", none⟩],
       entries := [⟨1, 1, "e1", "A", "https://example.com/1", 100, none, some "B",
         none, [], false, none⟩],
       dedup := [] } : RSSState).dedup := by
  decide

/-- C2 (amended): an RSS adapter read does touch the Deduplication Store: it
leaves the feed and entry tables unchanged, but extends the dedup store by
exactly one `retrieved` fingerprint per returned entry whose
`title + " " + summary` text is non-blank — the adapter queries `is_similar`
on every candidate and indexes what it returns, in addition to the Executor's
own dedup. -/
theorem C2_amended (semantic_hit : String → ℚ → List ContentEmbedding → Bool)
    (enabled : Bool) (embed_json : String → String)
    (feed_id max_entries : Nat) (category : Option String)
    (include_content only_unprocessed : Bool) (st : RSSState) :
    (read_feed semantic_hit enabled embed_json feed_id max_entries category
      include_content only_unprocessed st).2.feeds = st.feeds ∧
    (read_feed semantic_hit enabled embed_json feed_id max_entries category
      include_content only_unprocessed st).2.entries = st.entries ∧
    (read_feed semantic_hit enabled embed_json feed_id max_entries category
      include_content only_unprocessed st).2.dedup =
      st.dedup ++
        (((read_feed semantic_hit enabled embed_json feed_id max_entries category
            include_content only_unprocessed st).1.getD []).filter
          (fun d => !blank_text (dict_content_text d))).map
          (fun d => fingerprint_of enabled embed_json (dict_content_text d)) := by
  unfold read_feed
  cases hfind : st.feeds.find? (fun f => f.id == feed_id) with
  | none => simp
  | some feed =>
    obtain ⟨kept, h1, h2⟩ := read_feed_loop_dedup_effect semantic_hit enabled embed_json
      max_entries category include_content
      ((st.entries.filter (fun e =>
        e.feed_id == feed_id && (!only_unprocessed || !e.is_processed))).insertionSort
        published_desc) [] st.dedup
    refine ⟨rfl, rfl, ?_⟩
    dsimp only
    rw [h2, h1]
    simp

/-- With no category filter, semantic mode disabled, every entry's text
non-blank and unseen by the dedup store, pairwise-distinct hashes and room
under the limit, the `read_feed` loop keeps every entry and indexes every
entry. -/
theorem read_feed_loop_fresh
    (semantic_hit : String → ℚ → List ContentEmbedding → Bool)
    (embed_json : String → String) (max_entries : Nat) (include_content : Bool) :
    ∀ (l : List RSSEntryModel) (acc : List RSSEntryDict) (dedup : List ContentEmbedding),
      (∀ e ∈ l, blank_text (entry_content_text e) = false) →
      (∀ e ∈ l, ∀ row ∈ dedup, row.content_hash ≠ compute_hash (entry_content_text e)) →
      (l.map (fun e => compute_hash (entry_content_text e))).Nodup →
      acc.length + l.length ≤ max_entries →
      read_feed_loop semantic_hit false embed_json max_entries none include_content
          l acc dedup =
        (acc.reverse ++ l.map (format_read_entry include_content),
         dedup ++ l.map (fun e =>
           fingerprint_of false embed_json (entry_content_text e))) := by
  intro l
  induction l with
  | nil =>
    intro acc dedup _ _ _ _
    simp [read_feed_loop]
  | cons e rest ih =>
    intro acc dedup hnb hfresh hnodup hmx
    have hnbe : blank_text (entry_content_text e) = false := hnb e (by simp)
    have hany : (dedup.any
        (fun r => r.content_hash == compute_hash (entry_content_text e))) = false := by
      rw [List.any_eq_false]
      intro row hrow
      simpa using hfresh e (by simp) row hrow
    have hsim : is_similar semantic_hit false (entry_content_text e)
        defaultThreshold dedup = false := by
      unfold is_similar
      rw [if_neg (by simp [hnbe]), if_neg (by simp [hany])]
      rfl
    rw [read_feed_loop]
    rw [if_neg (by simp [category_matches]), if_neg (by simp [hsim])]
    have hadd : add_item false embed_json (entry_content_text e) "retrieved" dedup =
        dedup ++ [fingerprint_of false embed_json (entry_content_text e)] := by
      unfold add_item
      rw [if_neg (by simp [hnbe])]
      rfl
    by_cases hbrk : max_entries ≤ (format_read_entry include_content e :: acc).length
    · have hrest : rest = [] := by
        rw [← List.length_eq_zero]
        simp only [List.length_cons] at hbrk hmx ⊢
        omega
      subst hrest
      rw [if_pos hbrk, hadd]
      simp
    · rw [if_neg hbrk]
      rw [hadd]
      rw [ih (format_read_entry include_content e :: acc)
        (dedup ++ [fingerprint_of false embed_json (entry_content_text e)])
        (fun e' he' => hnb e' (by simp [he']))
        ?_ (List.nodup_cons.mp hnodup).2 (by simp at hmx ⊢; omega)]
      · simp
      · intro e' he' row hrow
        rcases List.mem_append.mp hrow with hold | hnew
        · exact hfresh e' (by simp [he']) row hold
        · have : row = fingerprint_of false embed_json (entry_content_text e) := by
            simpa using hnew
          subst this
          have hni := (List.nodup_cons.mp hnodup).1
          simp only [fingerprint_of]
          intro hEq
          apply hni
          show compute_hash (entry_content_text e) ∈
            rest.map (fun e => compute_hash (entry_content_text e))
          rw [hEq]
          exact List.mem_map_of_mem _ he'

/-- When every entry's text is non-blank and already fingerprinted in the
dedup store, the `read_feed` loop (semantic mode disabled, no category) drops
everything and leaves the store unchanged. -/
theorem read_feed_loop_all_dup
    (semantic_hit : String → ℚ → List ContentEmbedding → Bool)
    (embed_json : String → String) (max_entries : Nat) (include_content : Bool) :
    ∀ (l : List RSSEntryModel) (acc : List RSSEntryDict) (dedup : List ContentEmbedding),
      (∀ e ∈ l, blank_text (entry_content_text e) = false ∧
        dedup.any
          (fun row => row.content_hash == compute_hash (entry_content_text e)) = true) →
      read_feed_loop semantic_hit false embed_json max_entries none include_content
        l acc dedup = (acc.reverse, dedup) := by
  intro l
  induction l with
  | nil =>
    intro acc dedup _
    simp [read_feed_loop]
  | cons e rest ih =>
    intro acc dedup hdup
    have hsim : is_similar semantic_hit false (entry_content_text e)
        defaultThreshold dedup = true := by
      unfold is_similar
      rw [if_neg (by simp [(hdup e (by simp)).1])]
      rw [if_pos ((hdup e (by simp)).2)]
    rw [read_feed_loop]
    rw [if_neg (by simp [category_matches]), if_pos hsim]
    exact ih acc dedup (fun e' he' => hdup e' (by simp [he']))

/-- `mark_one` changes no entry id. -/
theorem mark_one_map_id (eid now : Nat) :
    ∀ es : List RSSEntryModel,
      ((mark_one eid now es).1).map (fun e => e.id) = es.map (fun e => e.id) := by
  intro es
  induction es with
  | nil => rfl
  | cons e rest ih =>
    rw [mark_one]
    by_cases h : (e.id == eid) = true
    · rw [if_pos h]
      simp
    · rw [if_neg h]
      simp [ih]

/-- Under unique entry ids, `mark_one` is the pointwise update of the row with
the given primary key. -/
theorem mark_one_eq_map (eid now : Nat) :
    ∀ es : List RSSEntryModel, (es.map (fun e => e.id)).Nodup →
      (mark_one eid now es).1 = es.map (fun e =>
        if e.id == eid then { e with is_processed := true, processed_at := some now }
        else e) := by
  intro es
  induction es with
  | nil =>
    intro _
    rfl
  | cons e rest ih =>
    intro hnd
    rw [mark_one]
    by_cases h : (e.id == eid) = true
    · rw [if_pos h]
      have hnotin : ∀ e' ∈ rest, (e'.id == eid) = false := by
        intro e' he'
        have hne : e.id ∉ rest.map (fun e => e.id) := (List.nodup_cons.mp hnd).1
        have heid : e.id = eid := by simpa using h
        rw [← heid]
        by_contra hc
        simp only [Bool.not_eq_false] at hc
        exact hne (by
          have hsame : e'.id = e.id := by simpa [heid] using hc
          exact hsame ▸ List.mem_map_of_mem _ he')
      have hrest : rest.map (fun e' =>
          if e'.id == eid then { e' with is_processed := true, processed_at := some now }
          else e') = rest := by
        rw [List.map_congr_left (fun e' he' => by rw [if_neg (by simp [hnotin e' he'])])]
        exact List.map_id rest
      rw [List.map_cons, if_pos h, hrest]
    · rw [if_neg h]
      simp only [h, if_false]
      rw [ih (List.nodup_cons.mp hnd).2, List.map_cons, if_neg h]

/-- Folding `mark_one` over the ids, projected to the entry table. -/
theorem mark_processed_fold_fst (now : Nat) :
    ∀ (ids : List Nat) (es : List RSSEntryModel) (c : Nat),
      (ids.foldl
        (fun (p : List RSSEntryModel × Nat) eid =>
          ((mark_one eid now p.1).1,
           if (mark_one eid now p.1).2 then p.2 + 1 else p.2))
        (es, c)).1 =
      ids.foldl (fun es eid => (mark_one eid now es).1) es := by
  intro ids
  induction ids with
  | nil => intro es c; rfl
  | cons eid rest ih => intro es c; exact ih _ _

/-- The entry table after `mark_processed` is the `mark_one` fold over the
ids. -/
theorem mark_processed_entries_eq (ids : List Nat) (now : Nat) (st : RSSState) :
    (mark_processed ids now st).1.entries =
      ids.foldl (fun es eid => (mark_one eid now es).1) st.entries := by
  unfold mark_processed
  dsimp only
  rw [mark_processed_fold_fst]

/-- Under unique entry ids, marking a list of ids updates exactly the rows
whose id is listed. -/
theorem mark_processed_fold_eq_map (now : Nat) :
    ∀ (ids : List Nat) (es : List RSSEntryModel), (es.map (fun e => e.id)).Nodup →
      ids.foldl (fun es eid => (mark_one eid now es).1) es =
        es.map (fun e =>
          if e.id ∈ ids then { e with is_processed := true, processed_at := some now }
          else e) := by
  intro ids
  induction ids with
  | nil =>
    intro es _
    simp
  | cons eid rest ih =>
    intro es hnd
    have h1 : (mark_one eid now es).1 = es.map (fun e =>
        if e.id == eid then { e with is_processed := true, processed_at := some now }
        else e) := mark_one_eq_map eid now es hnd
    have hnd' : (((mark_one eid now es).1).map (fun e => e.id)).Nodup := by
      rw [mark_one_map_id]
      exact hnd
    calc (eid :: rest).foldl (fun es eid => (mark_one eid now es).1) es
        = rest.foldl (fun es eid => (mark_one eid now es).1) (mark_one eid now es).1 := rfl
      _ = ((mark_one eid now es).1).map (fun e =>
            if e.id ∈ rest then { e with is_processed := true, processed_at := some now }
            else e) := ih _ hnd'
      _ = es.map (fun e =>
            if e.id ∈ eid :: rest then
              { e with is_processed := true, processed_at := some now }
            else e) := by
          rw [h1, List.map_map]
          apply List.map_congr_left
          intro e _
          by_cases he : (e.id == eid) = true
          · have heq : e.id = eid := by simpa using he
            by_cases hr : e.id ∈ rest <;>
              simp [Function.comp, he, heq, hr]
          · have hne : ¬ e.id = eid := by simpa using he
            by_cases hr : e.id ∈ rest <;>
              simp [Function.comp, he, hne, hr, List.mem_cons]

/-- `read_feed` on an existing feed: what it computes, spelled out. -/
theorem read_feed_eq_of_found
    (semantic_hit : String → ℚ → List ContentEmbedding → Bool)
    (enabled : Bool) (embed_json : String → String)
    (feed_id max_entries : Nat) (category : Option String)
    (include_content only_unprocessed : Bool) (st : RSSState) (feed : RSSFeedModel)
    (hfind : st.feeds.find? (fun f => f.id == feed_id) = some feed) :
    read_feed semantic_hit enabled embed_json feed_id max_entries category
      include_content only_unprocessed st =
    (some (read_feed_loop semantic_hit enabled embed_json max_entries category
        include_content
        ((st.entries.filter (fun e =>
          e.feed_id == feed_id && (!only_unprocessed || !e.is_processed))).insertionSort
          published_desc) [] st.dedup).1,
     { st with dedup := (read_feed_loop semantic_hit enabled embed_json max_entries
        category include_content
        ((st.entries.filter (fun e =>
          e.feed_id == feed_id && (!only_unprocessed || !e.is_processed))).insertionSort
          published_desc) [] st.dedup).2 }) := by
  unfold read_feed
  rw [hfind]

set_option maxRecDepth 40000

/-- C3 counterexample: on a feed with N = 1 unprocessed entry and a fresh
dedup store, `read(limit=1)` returns the entry; after `mark_processed` on it,
`read(limit=1, only_unprocessed=false)` does **not** return it again — the
first read indexed the entry into the dedup store, so the second read drops it
and returns 0 entries, not N. -/
theorem C3_counterexample :
    ((read_feed (fun _ _ _ => false) false (fun _ => "null") 1 1 none false true
        sample_rss_state).1.getD []).length = 1 ∧
    ((read_feed (fun _ _ _ => false) false (fun _ => "null") 1 1 none false false
        (mark_processed
          (((read_feed (fun _ _ _ => false) false (fun _ => "null") 1 1 none false true
              sample_rss_state).1.getD []).map (fun d => d.id))
          50
          (read_feed (fun _ _ _ => false) false (fun _ => "null") 1 1 none false true
            sample_rss_state).2).1).1.getD []).length ≠ 1 := by
  constructor
  · decide
  · decide

/-- C3 (amended): read/mark/read round-trip on a feed with N unprocessed
entries (fresh dedup store, non-blank pairwise-hash-distinct entry texts,
unique row ids, semantic mode disabled): `read(limit=N)` returns all N
entries; after `mark_processed` on all of them `read(limit=N,
only_unprocessed=true)` returns 0; but `read(limit=N, only_unprocessed=false)`
also returns 0 — not N as the spec states — because the first read
fingerprinted every returned entry into the dedup store and `read` drops
entries whose text matches a stored fingerprint. -/
theorem C3_amended (semantic_hit : String → ℚ → List ContentEmbedding → Bool)
    (embed_json : String → String) (fid N now : Nat) (include_content : Bool)
    (st : RSSState) (feed : RSSFeedModel)
    (hfind : st.feeds.find? (fun f => f.id == fid) = some feed)
    (hN : N = (st.entries.filter (fun e => e.feed_id == fid)).length)
    (hunproc : ∀ e ∈ st.entries, e.feed_id = fid → e.is_processed = false)
    (hnb : ∀ e ∈ st.entries, e.feed_id = fid →
      blank_text (entry_content_text e) = false)
    (hfresh : ∀ e ∈ st.entries, e.feed_id = fid →
      ∀ row ∈ st.dedup, row.content_hash ≠ compute_hash (entry_content_text e))
    (hhash : ((st.entries.filter (fun e => e.feed_id == fid)).map
      (fun e => compute_hash (entry_content_text e))).Nodup)
    (hids : (st.entries.map (fun e => e.id)).Nodup) :
    ((read_feed semantic_hit false embed_json fid N none include_content true
      st).1.getD []).length = N ∧
    ((read_feed semantic_hit false embed_json fid N none include_content true
      (mark_processed
        (((read_feed semantic_hit false embed_json fid N none include_content true
          st).1.getD []).map (fun d => d.id)) now
        (read_feed semantic_hit false embed_json fid N none include_content true
          st).2).1).1.getD []).length = 0 ∧
    ((read_feed semantic_hit false embed_json fid N none include_content false
      (mark_processed
        (((read_feed semantic_hit false embed_json fid N none include_content true
          st).1.getD []).map (fun d => d.id)) now
        (read_feed semantic_hit false embed_json fid N none include_content true
          st).2).1).1.getD []).length = 0 := by
  have hsel : st.entries.filter (fun e =>
      e.feed_id == fid && (!(true : Bool) || !e.is_processed)) =
      st.entries.filter (fun e => e.feed_id == fid) := by
    apply List.filter_congr
    intro e he
    by_cases hf : (e.feed_id == fid) = true
    · simp [hf, hunproc e he (by simpa using hf)]
    · simp [hf]
  set sorted := (st.entries.filter (fun e => e.feed_id == fid)).insertionSort
    published_desc with hsorted
  have hperm : sorted.Perm (st.entries.filter (fun e => e.feed_id == fid)) := by
    rw [hsorted]
    exact List.perm_insertionSort _ _
  have hmemsorted : ∀ e ∈ sorted, e ∈ st.entries ∧ (e.feed_id == fid) = true := by
    intro e he
    exact List.mem_filter.mp (hperm.mem_iff.mp he)
  have hlen : sorted.length = N := by rw [hperm.length_eq, hN]
  have hloop := read_feed_loop_fresh semantic_hit embed_json N include_content sorted []
    st.dedup
    (fun e he => hnb e (hmemsorted e he).1 (by simpa using (hmemsorted e he).2))
    (fun e he => hfresh e (hmemsorted e he).1 (by simpa using (hmemsorted e he).2))
    (((hperm.map (fun e => compute_hash (entry_content_text e))).nodup_iff).mpr hhash)
    (by simp [hlen])
  have hread1 : read_feed semantic_hit false embed_json fid N none include_content true
      st =
      (some (sorted.map (format_read_entry include_content)),
       { st with dedup := st.dedup ++ sorted.map (fun e =>
         fingerprint_of false embed_json (entry_content_text e)) }) := by
    rw [read_feed_eq_of_found semantic_hit false embed_json fid N none include_content
      true st feed hfind]
    rw [hsel, ← hsorted, hloop]
    simp
  have hids2 : (((read_feed semantic_hit false embed_json fid N none include_content
      true st).1.getD []).map (fun d => d.id)) = sorted.map (fun e => e.id) := by
    rw [hread1]
    simp only [Option.getD_some, List.map_map]
    rfl
  set marked_entries := st.entries.map (fun e =>
    if e.id ∈ sorted.map (fun e => e.id) then
      { e with is_processed := true, processed_at := some now } else e) with hmarked
  have hentries2 : (mark_processed
      (((read_feed semantic_hit false embed_json fid N none include_content true
        st).1.getD []).map (fun d => d.id)) now
      (read_feed semantic_hit false embed_json fid N none include_content true
        st).2).1.entries = marked_entries := by
    rw [hids2, hread1, mark_processed_entries_eq]
    rw [mark_processed_fold_eq_map now _ _ hids]
  have hfeeds2 : (mark_processed
      (((read_feed semantic_hit false embed_json fid N none include_content true
        st).1.getD []).map (fun d => d.id)) now
      (read_feed semantic_hit false embed_json fid N none include_content true
        st).2).1.feeds = st.feeds := by
    rw [hread1]
    rfl
  have hdedup2 : (mark_processed
      (((read_feed semantic_hit false embed_json fid N none include_content true
        st).1.getD []).map (fun d => d.id)) now
      (read_feed semantic_hit false embed_json fid N none include_content true
        st).2).1.dedup = st.dedup ++ sorted.map (fun e =>
          fingerprint_of false embed_json (entry_content_text e)) := by
    rw [hread1]
    rfl
  have hfind2 : (mark_processed
      (((read_feed semantic_hit false embed_json fid N none include_content true
        st).1.getD []).map (fun d => d.id)) now
      (read_feed semantic_hit false embed_json fid N none include_content true
        st).2).1.feeds.find? (fun f => f.id == fid) = some feed := by
    rw [hfeeds2]
    exact hfind
  refine ⟨?_, ?_, ?_⟩
  · rw [hread1]
    simpa using hlen
  · rw [read_feed_eq_of_found semantic_hit false embed_json fid N none include_content
      true _ feed hfind2]
    rw [hentries2]
    have hfilterU : marked_entries.filter (fun e =>
        e.feed_id == fid && (!(true : Bool) || !e.is_processed)) = [] := by
      rw [hmarked, List.filter_eq_nil_iff]
      intro e' he'
      obtain ⟨e, he, rfl⟩ := List.mem_map.mp he'
      by_cases hf : (e.feed_id == fid) = true
      · have hin : e ∈ sorted := hperm.mem_iff.mpr (List.mem_filter.mpr ⟨he, hf⟩)
        have hidin : e.id ∈ sorted.map (fun e => e.id) := List.mem_map_of_mem _ hin
        simp [hidin, hf]
      · by_cases hc : e.id ∈ sorted.map (fun e => e.id) <;> simp [hc, hf]
    rw [hfilterU]
    simp [read_feed_loop]
  · rw [read_feed_eq_of_found semantic_hit false embed_json fid N none include_content
      false _ feed hfind2]
    rw [hentries2, hdedup2]
    have hfilterF : marked_entries.filter (fun e =>
        e.feed_id == fid && (!(false : Bool) || !e.is_processed)) =
        marked_entries.filter (fun e => e.feed_id == fid) := by
      apply List.filter_congr
      intro e _
      simp
    rw [hfilterF]
    have hall : ∀ e' ∈ (marked_entries.filter
        (fun e => e.feed_id == fid)).insertionSort published_desc,
        blank_text (entry_content_text e') = false ∧
        (st.dedup ++ sorted.map (fun e =>
          fingerprint_of false embed_json (entry_content_text e))).any
          (fun row => row.content_hash == compute_hash (entry_content_text e')) =
          true := by
      intro e' he'
      have hmem3 := List.mem_filter.mp ((List.perm_insertionSort _ _).mem_iff.mp he')
      rw [hmarked] at hmem3
      obtain ⟨e, he, hge⟩ := List.mem_map.mp hmem3.1
      have hgfeed : (if e.id ∈ sorted.map (fun e => e.id) then
          { e with is_processed := true, processed_at := some now }
          else e).feed_id = e.feed_id := by
        by_cases hc : e.id ∈ sorted.map (fun e => e.id) <;> simp [hc]
      have hgtext : entry_content_text (if e.id ∈ sorted.map (fun e => e.id) then
          { e with is_processed := true, processed_at := some now } else e) =
          entry_content_text e := by
        by_cases hc : e.id ∈ sorted.map (fun e => e.id) <;>
          simp [hc, entry_content_text]
      have hfe : (e.feed_id == fid) = true := by
        have := hmem3.2
        rw [← hge, hgfeed] at this
        exact this
      have htext : entry_content_text e' = entry_content_text e := by
        rw [← hge, hgtext]
      constructor
      · rw [htext]
        exact hnb e he (by simpa using hfe)
      · rw [List.any_eq_true]
        refine ⟨fingerprint_of false embed_json (entry_content_text e),
          List.mem_append.mpr (Or.inr (List.mem_map_of_mem _
            (hperm.mem_iff.mpr (List.mem_filter.mpr ⟨he, hfe⟩)))), ?_⟩
        rw [htext]
        simp [fingerprint_of]
    rw [read_feed_loop_all_dup semantic_hit embed_json N include_content _ [] _ hall]
    simp

/-- Witness for C3 (amended) at the N = 1 state of `C3_counterexample`. -/
theorem C3_amended_witness :
    ((read_feed (fun _ _ _ => false) false (fun _ => "null") 1 1 none false true
      sample_rss_state).1.getD []).length = 1 ∧
    ((read_feed (fun _ _ _ => false) false (fun _ => "null") 1 1 none false true
      (mark_processed
        (((read_feed (fun _ _ _ => false) false (fun _ => "null") 1 1 none false true
          sample_rss_state).1.getD []).map (fun d => d.id)) 50
        (read_feed (fun _ _ _ => false) false (fun _ => "null") 1 1 none false true
          sample_rss_state).2).1).1.getD []).length = 0 ∧
    ((read_feed (fun _ _ _ => false) false (fun _ => "null") 1 1 none false false
      (mark_processed
        (((read_feed (fun _ _ _ => false) false (fun _ => "null") 1 1 none false true
          sample_rss_state).1.getD []).map (fun d => d.id)) 50
        (read_feed (fun _ _ _ => false) false (fun _ => "null") 1 1 none false true
          sample_rss_state).2).1).1.getD []).length = 0 := by
  exact C3_amended (fun _ _ _ => false) (fun _ => "null") 1 1 50 false
    sample_rss_state ⟨1, "https://example.com/feed.xml", "F", none⟩ rfl (by decide)
    (by decide) (by decide)
    (by
      intro e he hf row hrow
      simp [sample_rss_state] at hrow)
    (by decide) (by decide)

end InfluencerPy
